import Mathlib

/- Shallow embedding of src/environmentlogger/environmental_logger_json2netcdf.py.

   Real (Python float) values are modelled by the rationals.  Python
   dictionaries with a fixed shape become Lean structures; dictionaries used
   as string-keyed tables become association lists looked up with pyLookup.
   Python exceptions are modelled by the PyError type together with Except
   (or by Option where only one failure mode exists). -/

namespace EnvLog

/-- Python runtime errors that the translated code can raise. -/
inductive PyError where
  | keyError (key : String)
  | typeError (msg : String)
  | attributeError (msg : String)
  | indexError

deriving instance DecidableEq for PyError

/-- Lookup in a Python dictionary modelled as an association list:
d[k] succeeds with the first matching value, otherwise raises KeyError. -/
def pyLookup {α : Type} (table : List (String × α)) (key : String) : Option α :=
  (table.find? (fun p => p.1 == key)).map (fun p => p.2)

/-- One value of the _UNIT_DICTIONARY table.  Every regular entry is a
dictionary with members original, SI and power; the entry for the empty
string key is the plain string value of the source line 94. -/
inductive UnitValue where
  | entry (original : String) (si : String) (power : ℚ)
  | rawString (s : String)

deriving instance DecidableEq for UnitValue

/-- _UNIT_DICTIONARY from the source, lines 80 to 94.  Decimal float
literals of the source are carried exactly as rationals. -/
def unitDictionary : List (String × UnitValue) :=
  [("m", .entry "meter" "meter" 1),
   ("hPa", .entry "hectopascal" "pascal" 100),
   ("DegCelsius", .entry "celsius" "celsius" 1),
   ("s", .entry "second" "second" 1),
   ("m/s", .entry "meter second-1" "meter second-1" 1),
   ("mm/h", .entry "millimeter hour-1" "meter second-1" (278 / 1000000000)),
   ("relHumPerCent", .entry "percent" "percent" 1),
   ("?mol/(m^2*s)", .entry "micromole meter-2 second-1" "mole second-1" (1 / 1000000)),
   ("umol/(m^2*s)", .entry "micromole meter-2 second-1" "mole second-1" (1 / 1000000)),
   ("kilo Lux", .entry "kiloLux" "lux" 1000),
   ("degrees", .entry "degree" "degree" 1),
   ("?s", .entry "microsecond" "second" (1 / 1000000)),
   ("us", .entry "microsecond" "second" (1 / 1000000)),
   ("ppm", .entry "part per million" "mol mol-1" (1 / 1000000)),
   ("", .rawString "")]

/-- _NAMES from the source, lines 102 to 108. -/
def namesDictionary : List (String × String) :=
  [("sensor par", "Photosynthetically Active Radiation"),
   ("sunDirection", "Solar zenith (or elevation) angle (under discussion right now)"),
   ("temperature", "Atmosperic Temperature"),
   ("relHumidity", "Relative Humidity"),
   ("precipitation", "Precipation Rate"),
   ("windDirection", "Wind Direction"),
   ("windVelocity", "Wind Speed")]

/-- Python s.replace(" ", "_"): every space becomes an underscore. -/
def replaceSpaces (s : String) : String :=
  String.mk (s.data.map (fun c => if c = ' ' then '_' else c))

/-- Python s.endswith(suf). -/
def pyEndsWith (s suf : String) : Bool :=
  decide (suf.data <:+ s.data)

/-- renameTheValue from the source, lines 120 to 131.  Notes on the
translation: when the name is a _UNIT_DICTIONARY key, the looked-up value
replaces the name; for every regular key that value is a dictionary, so the
final call name.replace raises AttributeError, while for the empty-string
key the value is the string "" and replace succeeds.  The condition of the
third branch, name in ("sensor co2" or "sensor par"), evaluates the or of
two non-empty strings to the first one, so it is the Python substring test
name in "sensor co2". -/
def renameTheValue (name : String) : Except PyError String :=
  match pyLookup unitDictionary name with
  | some (.entry _ _ _) =>
      .error (.attributeError "dict object has no attribute replace")
  | some (.rawString s) => .ok (replaceSpaces s)
  | none =>
      match pyLookup namesDictionary name with
      | some longName => .ok (replaceSpaces longName)
      | none =>
          if name.data <:+: ("sensor co2").data then
            .ok (replaceSpaces
              (if pyEndsWith name "co2" then "atmospherical CO2 concentration"
               else "photosynthetically active radiation"))
          else .ok (replaceSpaces name)

lemma replaceSpaces_length (s : String) : (replaceSpaces s).length = s.length := by
  show (s.data.map _).length = s.length
  rw [List.length_map]
  rfl

lemma length_le_of_infix_sensor_co2 {name : String}
    (h : name.data <:+: ("sensor co2").data) : name.length ≤ 10 := by
  have h1 := h.sublist.length_le
  have h2 : ("sensor co2").data.length = 10 := rfl
  rw [h2] at h1
  exact h1

/-- Claim C10: for a field key that is a key of neither the unit table nor
the long-name table, renameTheValue returns the key with spaces replaced by
underscores exactly when the key is not a contiguous substring of
"sensor co2"; when it is such a substring, the result is
atmospherical_CO2_concentration when the key ends with co2 and
photosynthetically_active_radiation otherwise. -/
theorem claim_C10_rename (name : String)
    (hu : pyLookup unitDictionary name = none)
    (hn : pyLookup namesDictionary name = none) :
    (renameTheValue name = .ok (replaceSpaces name) ↔
      ¬ (name.data <:+: ("sensor co2").data)) ∧
    ((name.data <:+: ("sensor co2").data) →
      renameTheValue name =
        .ok (if pyEndsWith name "co2" then "atmospherical_CO2_concentration"
             else "photosynthetically_active_radiation")) := by
  by_cases h : name.data <:+: ("sensor co2").data
  · constructor
    · constructor
      · intro heq
        exfalso
        have hout : renameTheValue name =
            .ok (replaceSpaces
              (if pyEndsWith name "co2" then "atmospherical CO2 concentration"
               else "photosynthetically active radiation")) := by
          simp only [renameTheValue, hu, hn, if_pos h]
        rw [hout] at heq
        have hlen : name.length ≤ 10 := length_le_of_infix_sensor_co2 h
        have hval := Except.ok.inj heq
        have := congrArg String.length hval
        rw [replaceSpaces_length, replaceSpaces_length] at this
        by_cases hc : pyEndsWith name "co2"
        · rw [if_pos hc] at this
          have h31 : String.length "atmospherical CO2 concentration" = 31 := rfl
          rw [h31] at this; omega
        · rw [if_neg hc] at this
          have h35 : String.length "photosynthetically active radiation" = 35 := rfl
          rw [h35] at this; omega
      · intro hcon; exact absurd h hcon
    · intro _
      simp only [renameTheValue, hu, hn, if_pos h]
      by_cases hc : pyEndsWith name "co2"
      · rw [if_pos hc, if_pos hc]; rfl
      · rw [if_neg hc, if_neg hc]; rfl
  · constructor
    · constructor
      · intro _; exact h
      · intro _; simp only [renameTheValue, hu, hn, if_neg h]
    · intro hcon; exact absurd hcon h

/-- Witness for claim C10 at the concrete key "sensor c": it is in neither
table, it is a substring of "sensor co2" not ending in co2, and it is
renamed to photosynthetically_active_radiation. -/
theorem claim_C10_rename_witness :
    renameTheValue "sensor c" = .ok "photosynthetically_active_radiation" := by
  have h := (claim_C10_rename "sensor c" (by decide) (by decide)).2 (by decide)
  have hc : pyEndsWith "sensor c" "co2" = false := by decide
  rw [h, hc]
  rfl

/-- Python list.insert(-1, x): insert x just before the last element,
or at the front of an empty list (the index clamps to 0). -/
def pyInsertNegOne (l : List ℚ) (x : ℚ) : List ℚ :=
  l.take (l.length - 1) ++ x :: l.drop (l.length - 1)

/-- The wavelength-delta computation of main, source lines 343 to 346:
midpoints of adjacent wavelengths, their successive differences, then
insert(0, 2 * (wvl_ntf[0] - wvl_lgr[0])) and
insert(-1, 2 * (wvl_lgr[-1] - wvl_ntf[-1])).  none models the Python
IndexError raised by wvl_ntf[0] when the grid has fewer than 2 entries;
no other validation exists in the source. -/
def computeDeltas : List ℚ → Option (List ℚ)
  | [] => none
  | [_] => none
  | w0 :: w1 :: ws =>
      let wvl_ntf := List.zipWith (fun a b => (a + b) / 2) (w0 :: w1 :: ws) (w1 :: ws)
      let delta := List.zipWith (fun a b => b - a) wvl_ntf wvl_ntf.tail
      some (pyInsertNegOne (2 * (wvl_ntf.headD 0 - w0) :: delta)
              (2 * ((w0 :: w1 :: ws).getLastD 0 - wvl_ntf.getLastD 0)))

/-- Claim C1, evaluated at a non-uniform grid: on [0, 1, 2, 4] the
midpoints are [1/2, 3/2, 3], the interior deltas [1, 3/2], the first edge
delta 1 and the last edge delta 2 * (4 - 3) = 2; the insert(-1, ...) of the
source places that edge delta second-to-last, so the returned sequence is
[1, 1, 2, 3/2] and its last element is the interior delta 3/2, not the edge
delta 2.  On the uniform grid [1, 2, 3, 4] the claimed value [1, 1, 1, 1]
is still produced because all entries coincide. -/
theorem claim_C1_delta_misplaced :
    computeDeltas [0, 1, 2, 4] = some [1, 1, 2, 3 / 2] ∧
    (computeDeltas [0, 1, 2, 4]).map (fun l => l.getLastD 0) = some (3 / 2) ∧
    2 * ((4 : ℚ) - (2 + 4) / 2) = 2 ∧
    computeDeltas [1, 2, 3, 4] = some [1, 1, 1, 1] := by
  have h1 : computeDeltas [0, 1, 2, 4] = some [1, 1, 2, 3 / 2] := by
    norm_num [computeDeltas, pyInsertNegOne]
  refine ⟨h1, ?_, by norm_num, ?_⟩
  · rw [h1]; simp
  · norm_num [computeDeltas, pyInsertNegOne]

/-- Claim C8 counterexample: the strictly decreasing grid [4, 3, 2, 1] is
not strictly increasing, yet the computation returns a value instead of
raising any error. -/
theorem claim_C8_grid_cex :
    ¬ List.Chain' (fun a b => a < b) ([4, 3, 2, 1] : List ℚ) ∧
    computeDeltas [4, 3, 2, 1] = some [-1, -1, -1, -1] := by
  constructor
  · intro h
    have := List.Chain'.rel_head h
    norm_num at this
  · norm_num [computeDeltas, pyInsertNegOne]

/-- Claim C8 amended: the source performs no grid validation at all.  The
wavelength-delta computation returns a result for every grid with at least
2 entries, strictly increasing or not, and the only failure is the Python
IndexError on grids with fewer than 2 entries. -/
theorem claim_C8_amended_no_grid_validation (w : List ℚ) :
    (computeDeltas w).isSome = true ↔ 2 ≤ w.length := by
  match w with
  | [] => simp [computeDeltas]
  | [x] => simp [computeDeltas]
  | x :: y :: t =>
      constructor
      · intro _; simp [List.length]
      · intro _; simp [computeDeltas]

/-- Witness for the amended claim C8 at the 2-entry grid [5, 6]. -/
theorem claim_C8_amended_no_grid_validation_witness :
    (computeDeltas [5, 6]).isSome = true :=
  (claim_C8_amended_no_grid_validation [5, 6]).mpr (by decide)

/-- One weather-station or sensor field of a reading: a JSON object with
value, rawValue and unit members. -/
structure WeatherDatum where
  value : ℚ
  rawValue : ℚ
  unit : String

deriving instance DecidableEq for WeatherDatum

/-- The spectrometer sub-record of a reading, as used by
handleSpectrometer: wavelength grid, spectral counts and saturation
threshold. -/
structure SpectroData where
  wavelength : List ℚ
  spectrum : List ℚ
  maxFixedIntensity : ℚ

deriving instance DecidableEq for SpectroData

/-- One reading of the batch.  weather_station holds the named fields of
the weather-station sub-object; sensors holds the top-level members whose
keys start with sensor (par, co2). -/
structure Reading where
  weather_station : List (String × WeatherDatum)
  sensors : List (String × WeatherDatum)
  spectrometer : SpectroData

deriving instance DecidableEq for Reading

/-- handleSpectrometer from the source, lines 167 to 178: the wavelength
grid is read from the first reading only, the spectra and saturation
thresholds from every reading; no shape validation is performed.  none
models the IndexError of JSONArray[0] on an empty batch. -/
def handleSpectrometer (batch : List Reading) :
    Option (List ℚ × List (List ℚ) × List ℚ) :=
  match batch with
  | [] => none
  | r0 :: _ =>
      some (r0.spectrometer.wavelength,
            batch.map (fun r => r.spectrometer.spectrum),
            batch.map (fun r => r.spectrometer.maxFixedIntensity))

/-- The per-reading traversal of a comprehension such as
[float(m["weather_station"][dataName][member]) for m in arrayOfJSON]: the
first reading missing the field raises KeyError. -/
def collectField (batch : List Reading) (table : Reading → List (String × WeatherDatum))
    (dataName : String) (member : WeatherDatum → ℚ) : Except PyError (List ℚ) :=
  match batch with
  | [] => .ok []
  | r :: rs =>
      match pyLookup (table r) dataName with
      | none => .error (.keyError dataName)
      | some d => (collectField rs table dataName member).map (fun l => member d :: l)

/-- getListOfWeatherStationValue from the source, lines 149 to 164.
Evaluation order follows Python: the unit of the first reading is looked
up in _UNIT_DICTIONARY (KeyError on an unknown label), then the value
comprehension runs (KeyError on a missing field), then the numpy
multiplication subscripts the looked-up entry with "power", which raises
TypeError when the entry is the plain string stored under the empty-string
key.  The converted values are the value members scaled by power, the raw
values are the rawValue members unchanged. -/
def getListOfWeatherStationValue (batch : List Reading) (dataName : String) :
    Except PyError (List ℚ × List String × List ℚ) :=
  match batch with
  | [] => .error .indexError
  | r0 :: _ =>
      match pyLookup r0.weather_station dataName with
      | none => .error (.keyError dataName)
      | some d0 =>
          match pyLookup unitDictionary d0.unit with
          | none => .error (.keyError d0.unit)
          | some conv =>
              match collectField batch (fun r => r.weather_station) dataName
                      (fun d => d.value) with
              | .error e => .error e
              | .ok vals =>
                  match conv with
                  | .rawString _ => .error (.typeError "string indices must be integers")
                  | .entry _ si power =>
                      match collectField batch (fun r => r.weather_station) dataName
                              (fun d => d.rawValue) with
                      | .error e => .error e
                      | .ok raws =>
                          .ok (vals.map (fun v => v * power),
                               batch.map (fun _ => si), raws)

/-- sensorVariables from the source, lines 181 to 196: identical to
getListOfWeatherStationValue except that the field is a top-level member
of the reading (a sensor object) rather than a weather-station member. -/
def sensorVariables (batch : List Reading) (sensors : String) :
    Except PyError (List ℚ × List String × List ℚ) :=
  match batch with
  | [] => .error .indexError
  | r0 :: _ =>
      match pyLookup r0.sensors sensors with
      | none => .error (.keyError sensors)
      | some d0 =>
          match pyLookup unitDictionary d0.unit with
          | none => .error (.keyError d0.unit)
          | some conv =>
              match collectField batch (fun r => r.sensors) sensors
                      (fun d => d.value) with
              | .error e => .error e
              | .ok vals =>
                  match conv with
                  | .rawString _ => .error (.typeError "string indices must be integers")
                  | .entry _ si power =>
                      match collectField batch (fun r => r.sensors) sensors
                              (fun d => d.rawValue) with
                      | .error e => .error e
                      | .ok raws =>
                          .ok (vals.map (fun v => v * power),
                               batch.map (fun _ => si), raws)

lemma collectField_eq (batch : List Reading)
    (table : Reading → List (String × WeatherDatum)) (dataName : String)
    (member : WeatherDatum → ℚ) (f : Reading → WeatherDatum)
    (hf : ∀ r ∈ batch, pyLookup (table r) dataName = some (f r)) :
    collectField batch table dataName member = .ok (batch.map (fun r => member (f r))) := by
  induction batch with
  | nil => rfl
  | cons r rs ih =>
      have hr := hf r (List.mem_cons_self r rs)
      have hrs : ∀ x ∈ rs, pyLookup (table x) dataName = some (f x) :=
        fun x hx => hf x (List.mem_cons_of_mem r hx)
      simp [collectField, hr, ih hrs, Except.map]

/-- Claim C3 amended: for a non-empty batch in which every reading carries
the field and the unit of the first reading maps to a regular table entry
with scale factor p, the extractor returns values[i] equal to the value
member of batch[i] times p (not the rawValue member times p), the SI name
repeated once per reading, and the rawValue members unchanged. -/
theorem claim_C3_amended_extractor (batch : List Reading) (dataName : String)
    (r0 : Reading) (rest : List Reading) (hb : batch = r0 :: rest)
    (f : Reading → WeatherDatum)
    (hf : ∀ r ∈ batch, pyLookup r.weather_station dataName = some (f r))
    (o si : String) (p : ℚ)
    (hu : pyLookup unitDictionary (f r0).unit = some (.entry o si p)) :
    getListOfWeatherStationValue batch dataName =
      .ok (batch.map (fun r => (f r).value * p),
           batch.map (fun _ => si),
           batch.map (fun r => (f r).rawValue)) := by
  subst hb
  have h0 := hf r0 (List.mem_cons_self r0 rest)
  have hv := collectField_eq (r0 :: rest) (fun r => r.weather_station) dataName
    (fun d => d.value) f hf
  have hraw := collectField_eq (r0 :: rest) (fun r => r.weather_station) dataName
    (fun d => d.rawValue) f hf
  simp [getListOfWeatherStationValue, h0, hu, hv, hraw]

/-- A concrete reading whose value member 5 differs from its rawValue
member 7, with unit hPa (scale factor 100). -/
def readingX : Reading :=
  ⟨[("temperature", ⟨5, 7, "hPa"⟩)], [], ⟨[], [], 0⟩⟩

/-- Claim C3 counterexample: on a batch whose reading has value 5 and
rawValue 7 under unit hPa, the extractor returns values [500] and
rawValues [7], and 500 is not rawValue times the scale factor 100. -/
theorem claim_C3_extractor_cex :
    getListOfWeatherStationValue [readingX] "temperature" =
      .ok ([500], ["pascal"], [7]) ∧ (500 : ℚ) ≠ 7 * 100 := by
  constructor
  · have h := claim_C3_amended_extractor [readingX] "temperature" readingX [] rfl
      (fun _ => (⟨5, 7, "hPa"⟩ : WeatherDatum)) (by intro r hr; simp at hr; subst hr; rfl)
      "hectopascal" "pascal" 100 (by decide)
    rw [h]
    norm_num [readingX]
  · norm_num

/-- The three readings of the spec example: raw values 1, 2, 3 with value
members equal to the raw members, under unit hPa (scale factor 100). -/
def batchC3 : List Reading :=
  [⟨[("temperature", ⟨1, 1, "hPa"⟩)], [], ⟨[], [], 0⟩⟩,
   ⟨[("temperature", ⟨2, 2, "hPa"⟩)], [], ⟨[], [], 0⟩⟩,
   ⟨[("temperature", ⟨3, 3, "hPa"⟩)], [], ⟨[], [], 0⟩⟩]

/-- Witness for the amended claim C3: on the 3-reading batch with values
equal to raw values 1, 2, 3 and scale factor 100 the extractor returns
values [100, 200, 300] and rawValues [1, 2, 3] unchanged. -/
theorem claim_C3_amended_extractor_witness :
    getListOfWeatherStationValue batchC3 "temperature" =
      .ok ([100, 200, 300], ["pascal", "pascal", "pascal"], [1, 2, 3]) := by
  have h := claim_C3_amended_extractor batchC3 "temperature"
      ⟨[("temperature", ⟨1, 1, "hPa"⟩)], [], ⟨[], [], 0⟩⟩
      [⟨[("temperature", ⟨2, 2, "hPa"⟩)], [], ⟨[], [], 0⟩⟩,
       ⟨[("temperature", ⟨3, 3, "hPa"⟩)], [], ⟨[], [], 0⟩⟩] rfl
      (fun r => (pyLookup r.weather_station "temperature").getD ⟨0, 0, ""⟩)
      (by intro r hr; simp [batchC3] at hr
          rcases hr with h1 | h1 | h1 <;> subst h1 <;> rfl)
      "hectopascal" "pascal" 100 (by decide)
  rw [h]
  norm_num [batchC3, pyLookup]

/-- Readings for claim C5: the first reading has a 2-entry wavelength grid,
the second a 3-entry spectrum, a shape mismatch. -/
def readingA : Reading := ⟨[], [], ⟨[400, 500], [1, 2], 16383⟩⟩

def readingB : Reading := ⟨[], [], ⟨[400, 500], [1, 2, 3], 16383⟩⟩

/-- Claim C5 counterexample: the spectrum of the second reading has length
3 while the wavelength grid of the first has length 2, yet
handleSpectrometer returns a value; no error of any kind is raised. -/
theorem claim_C5_spectro_cex :
    readingB.spectrometer.spectrum.length ≠ readingA.spectrometer.wavelength.length ∧
    (handleSpectrometer [readingA, readingB]).isSome = true :=
  ⟨by decide, rfl⟩

/-- Claim C5 amended: handleSpectrometer performs no shape validation.
Even when some reading has a spectrum whose length differs from the
wavelength grid of the first reading, it returns the grid of the first
reading and all spectra unchanged; the mismatch can only surface later, in
the external netCDF writer. -/
theorem claim_C5_amended_spectro (r0 : Reading) (rest : List Reading)
    (hm : ∃ r ∈ r0 :: rest,
      r.spectrometer.spectrum.length ≠ r0.spectrometer.wavelength.length) :
    handleSpectrometer (r0 :: rest) =
      some (r0.spectrometer.wavelength,
            (r0 :: rest).map (fun r => r.spectrometer.spectrum),
            (r0 :: rest).map (fun r => r.spectrometer.maxFixedIntensity)) :=
  rfl

/-- Witness for the amended claim C5 at the concrete mismatched batch. -/
theorem claim_C5_amended_spectro_witness :
    handleSpectrometer [readingA, readingB] =
      some ([400, 500], [[1, 2], [1, 2, 3]], [16383, 16383]) := by
  have h := claim_C5_amended_spectro readingA [readingB]
    ⟨readingB, List.Mem.tail _ (List.Mem.head _), by decide⟩
  rw [h]
  rfl

/-- A concrete reading whose recorded unit is the empty string. -/
def readingE : Reading :=
  ⟨[("temperature", ⟨3, 3, ""⟩)], [], ⟨[], [], 0⟩⟩

/-- Claim C6: the empty-string label IS a key of _UNIT_DICTIONARY, but its
value is the plain string "" rather than an entry with scale factor 1, so
extracting a field recorded with the empty-string unit raises TypeError at
the subscript with "power" instead of succeeding unscaled. -/
theorem claim_C6_empty_unit_typeerror :
    pyLookup unitDictionary "" = some (.rawString "") ∧
    getListOfWeatherStationValue [readingE] "temperature" =
      .error (.typeError "string indices must be integers") :=
  ⟨rfl, rfl⟩

/-- Claim C7 amended: looking up an unknown unit label during field
extraction raises a KeyError whose payload is the offending label alone;
the field name is not part of the error, and no fallback scale of 1 is
applied. -/
theorem claim_C7_amended_unknown_unit (batch : List Reading) (dataName : String)
    (r0 : Reading) (rest : List Reading) (hb : batch = r0 :: rest)
    (d0 : WeatherDatum) (h0 : pyLookup r0.weather_station dataName = some d0)
    (hu : pyLookup unitDictionary d0.unit = none) :
    getListOfWeatherStationValue batch dataName = .error (.keyError d0.unit) := by
  subst hb
  simp [getListOfWeatherStationValue, h0, hu]

/-- A concrete reading with the unknown unit label furlong. -/
def readingU : Reading :=
  ⟨[("temperature", ⟨3, 3, "furlong"⟩)], [], ⟨[], [], 0⟩⟩

/-- Claim C7 counterexample: extracting the field temperature with unknown
unit furlong raises KeyError "furlong"; the payload is not an
UnknownUnitError naming the field, and indeed the field name temperature
does not occur in the payload. -/
theorem claim_C7_unknown_unit_cex :
    getListOfWeatherStationValue [readingU] "temperature" =
      .error (.keyError "furlong") ∧
    ¬ (("temperature").data <:+: ("furlong").data) :=
  ⟨rfl, by decide⟩

/-- A second concrete reading with unknown unit cubit on field airPressure. -/
def readingU2 : Reading :=
  ⟨[("airPressure", ⟨1, 1, "cubit"⟩)], [], ⟨[], [], 0⟩⟩

/-- Witness for the amended claim C7 at the concrete reading readingU2. -/
theorem claim_C7_amended_unknown_unit_witness :
    getListOfWeatherStationValue [readingU2] "airPressure" =
      .error (.keyError "cubit") :=
  claim_C7_amended_unknown_unit [readingU2] "airPressure" readingU2 [] rfl
    ⟨1, 1, "cubit"⟩ rfl rfl

lemma zipWith_getD (f : ℚ → ℚ → ℚ) :
    ∀ (a b : List ℚ) (k : ℕ), k < a.length → k < b.length →
      (List.zipWith f a b).getD k 0 = f (a.getD k 0) (b.getD k 0) := by
  intro a
  induction a with
  | nil => intro b k ha _; simp at ha
  | cons a0 as ih =>
      intro b k ha hb
      cases b with
      | nil => simp at hb
      | cons b0 bs =>
          cases k with
          | zero => simp
          | succ n =>
              simp only [List.zipWith_cons_cons, List.getD_cons_succ]
              exact ih bs n (by simpa using ha) (by simpa using hb)

lemma zipWith_mul_sum : ∀ (a b : List ℚ), a.length = b.length →
    (List.zipWith (fun x y => x * y) a b).sum =
      ∑ k in Finset.range b.length, a.getD k 0 * b.getD k 0 := by
  intro a
  induction a with
  | nil =>
      intro b h
      cases b with
      | nil => simp
      | cons b0 bs => simp at h
  | cons a0 as ih =>
      intro b h
      cases b with
      | nil => simp at h
      | cons b0 bs =>
          have hlen : as.length = bs.length := by simpa using h
          simp only [List.zipWith_cons_cons, List.sum_cons, List.length_cons]
          rw [Finset.sum_range_succ']
          simp only [List.getD_cons_succ, List.getD_cons_zero]
          rw [ih bs hlen]
          ring

/-- Modelled from the spec: calculateDownwellingSpectralFlux, together
with the constants FLX_SNS and AREA, is imported from the module
environmental_logger_calculation (source line 77), which is not present
under src/.  Following contract 4.5 of the spec: per reading i and channel
j, spectralFlux[i][j] = spectra[i][j] * calibrationCurve[j] /
(integrationTime * sensorArea); scalarFlux[i] is the dot product of the
spectral flux row i with the per-channel deltas. -/
def calculateDownwellingSpectralFlux (wavelengths : List ℚ)
    (spectra : List (List ℚ)) (deltas : List ℚ) (calibrationCurve : List ℚ)
    (integrationTime sensorArea : ℚ) : List (List ℚ) × List ℚ :=
  let spectralFlux := spectra.map (fun r =>
    List.zipWith (fun c s => c * s / (integrationTime * sensorArea)) r calibrationCurve)
  (spectralFlux,
   spectralFlux.map (fun r => (List.zipWith (fun x y => x * y) r deltas).sum))

/-- Claim C2: for every reading i and channel j, the spectral flux entry is
spectra[i][j] * calibrationCurve[j] / (integrationTime * sensorArea), and
the scalar flux of reading i is the sum over j of spectralFlux[i][j] *
deltas[j]. -/
theorem claim_C2_flux (wavelengths : List ℚ) (spectra : List (List ℚ))
    (deltas calibrationCurve : List ℚ) (tInt area : ℚ) (i j : ℕ) (row : List ℚ)
    (hi : spectra[i]? = some row)
    (hrow : row.length = calibrationCurve.length)
    (hd : deltas.length = calibrationCurve.length)
    (hj : j < calibrationCurve.length) :
    (((calculateDownwellingSpectralFlux wavelengths spectra deltas calibrationCurve
        tInt area).1.getD i []).getD j 0
      = row.getD j 0 * calibrationCurve.getD j 0 / (tInt * area)) ∧
    ((calculateDownwellingSpectralFlux wavelengths spectra deltas calibrationCurve
        tInt area).2.getD i 0
      = ∑ k in Finset.range calibrationCurve.length,
          ((calculateDownwellingSpectralFlux wavelengths spectra deltas calibrationCurve
              tInt area).1.getD i []).getD k 0 * deltas.getD k 0) := by
  have hrowF : (calculateDownwellingSpectralFlux wavelengths spectra deltas calibrationCurve
      tInt area).1.getD i []
      = List.zipWith (fun c s => c * s / (tInt * area)) row calibrationCurve := by
    show (spectra.map _).getD i [] = _
    rw [List.getD_eq_getElem?_getD, List.getElem?_map, hi]
    rfl
  constructor
  · rw [hrowF]
    exact zipWith_getD _ row calibrationCurve j (by rw [hrow]; exact hj) hj
  · have hsf : (calculateDownwellingSpectralFlux wavelengths spectra deltas calibrationCurve
        tInt area).2.getD i 0
        = (List.zipWith (fun x y => x * y)
            (List.zipWith (fun c s => c * s / (tInt * area)) row calibrationCurve)
            deltas).sum := by
      show ((spectra.map _).map _).getD i 0 = _
      rw [List.getD_eq_getElem?_getD, List.getElem?_map, List.getElem?_map, hi]
      rfl
    have hlen : (List.zipWith (fun c s => c * s / (tInt * area)) row calibrationCurve).length
        = deltas.length := by
      rw [List.length_zipWith, hrow, hd]
      simp
    rw [hsf, hrowF, zipWith_mul_sum _ _ hlen, hd]

/-- Witness for claim C2, the synthetic single-channel case of the spec:
one channel, delta 1, calibration 2, counts 10, integration time 1,
area 1; the spectral flux entry is 20 and the scalar flux is 20. -/
theorem claim_C2_flux_witness :
    ((calculateDownwellingSpectralFlux [500] [[10]] [1] [2] 1 1).1.getD 0 []).getD 0 0 = 20 ∧
    (calculateDownwellingSpectralFlux [500] [[10]] [1] [2] 1 1).2.getD 0 0 = 20 := by
  have h := claim_C2_flux [500] [[10]] [1] [2] 1 1 0 0 [10] rfl rfl rfl (by decide)
  constructor
  · rw [h.1]
    norm_num [List.getD_cons_zero]
  · rw [h.2, show ([2] : List ℚ).length = 1 from rfl, Finset.sum_range_one, h.1]
    norm_num [List.getD_cons_zero]

/-- The components parsed from a timestamp string of the fixed format. -/
structure ELTimestamp where
  year : ℕ
  month : ℕ
  day : ℕ
  hour : ℕ
  minute : ℕ
  second : ℕ

deriving instance DecidableEq for ELTimestamp

def isLeapYear (y : ℕ) : Bool :=
  (y % 4 == 0 && y % 100 != 0) || y % 400 == 0

def monthLength (y m : ℕ) : ℕ :=
  if m = 2 then (if isLeapYear y then 29 else 28)
  else if m = 4 ∨ m = 6 ∨ m = 9 ∨ m = 11 then 30
  else 31

/-- Proleptic Gregorian ordinal of a date, with day 1 being January 1 of
year 1, as in the Python date type used by translateTime. -/
def toOrdinal (y m d : ℕ) : ℕ :=
  365 * (y - 1) + (y - 1) / 4 - (y - 1) / 100 + (y - 1) / 400
    + ((List.range (m - 1)).map (fun i => monthLength y (i + 1))).sum + d

/-- The day difference computed by the date subtraction
date(...) - _UNIX_BASETIME of source line 204. -/
def daysSinceEpoch (y m d : ℕ) : ℤ :=
  (toOrdinal y m d : ℤ) - (toOrdinal 1970 1 1 : ℤ)

def digitVal (c : Char) : Option ℕ :=
  if c.isDigit then some (c.toNat - 48) else none

/-- Parsing of the fixed strptime format "%Y.%m.%d-%H:%M:%S" restricted to
the fixed-width rendering YYYY.MM.DD-HH:MM:SS, including the calendar and
range validation that datetime.strptime performs (month 1 to 12, day valid
for the month, hour at most 23, minute and second at most 59, year at
least 1).  none models the Python ValueError. -/
def parseTimestamp (s : String) : Option ELTimestamp :=
  match s.data with
  | [y1, y2, y3, y4, c1, m1, m2, c2, d1, d2, c3, h1, h2, c4, n1, n2, c5, s1, s2] =>
      if c1 = '.' ∧ c2 = '.' ∧ c3 = '-' ∧ c4 = ':' ∧ c5 = ':' then
        match digitVal y1, digitVal y2, digitVal y3, digitVal y4,
              digitVal m1, digitVal m2, digitVal d1, digitVal d2,
              digitVal h1, digitVal h2, digitVal n1, digitVal n2,
              digitVal s1, digitVal s2 with
        | some a1, some a2, some a3, some a4, some b1, some b2, some e1, some e2,
          some f1, some f2, some g1, some g2, some k1, some k2 =>
            let y := 1000 * a1 + 100 * a2 + 10 * a3 + a4
            let mo := 10 * b1 + b2
            let dd := 10 * e1 + e2
            let hh := 10 * f1 + f2
            let mi := 10 * g1 + g2
            let ss := 10 * k1 + k2
            if 1 ≤ y ∧ 1 ≤ mo ∧ mo ≤ 12 ∧ 1 ≤ dd ∧ dd ≤ monthLength y mo ∧
                hh ≤ 23 ∧ mi ≤ 59 ∧ ss ≤ 59 then
              some ⟨y, mo, dd, hh, mi, ss⟩
            else none
        | _, _, _, _, _, _, _, _, _, _, _, _, _, _ => none
      else none
  | _ => none

/-- translateTime from the source, lines 199 to 206: the whole-day part
comes from subtracting the date from _UNIX_BASETIME (total_seconds of the
timedelta is the day difference times 86400), the in-day part from the
hour, minute and second fields, and the sum is divided by 3600 * 24. -/
def translateTime (s : String) : Option ℚ :=
  (parseTimestamp s).map (fun t =>
    ((daysSinceEpoch t.year t.month t.day : ℚ) * 86400
      + (t.hour : ℚ) * 3600 + (t.minute : ℚ) * 60 + (t.second : ℚ)) / 86400)

/-- Claim C4: for every timestamp string of the fixed format that parses,
translateTime returns the integer day difference from 1970-01-01 plus
(hour * 3600 + minute * 60 + second) / 86400 fractional days; in
particular 1970.01.02-00:00:00 maps to 1 and 1970.01.01-12:00:00 to 1/2. -/
theorem claim_C4_time :
    (∀ (s : String) (y mo dd hh mi ss : ℕ),
      parseTimestamp s = some ⟨y, mo, dd, hh, mi, ss⟩ →
      translateTime s = some ((daysSinceEpoch y mo dd : ℚ)
        + ((hh : ℚ) * 3600 + (mi : ℚ) * 60 + (ss : ℚ)) / 86400)) ∧
    translateTime "1970.01.02-00:00:00" = some 1 ∧
    translateTime "1970.01.01-12:00:00" = some (1 / 2) := by
  refine ⟨?_, ?_, ?_⟩
  · intro s y mo dd hh mi ss h
    simp only [translateTime, h, Option.map_some']
    congr 1
    field_simp
    ring
  · have hp : parseTimestamp "1970.01.02-00:00:00" = some ⟨1970, 1, 2, 0, 0, 0⟩ := by
      decide
    have hd : daysSinceEpoch 1970 1 2 = 1 := by decide
    simp only [translateTime, hp, Option.map_some', hd]
    norm_num
  · have hp : parseTimestamp "1970.01.01-12:00:00" = some ⟨1970, 1, 1, 12, 0, 0⟩ := by
      decide
    have hd : daysSinceEpoch 1970 1 1 = 0 := by decide
    simp only [translateTime, hp, Option.map_some', hd]
    norm_num

/-- Witness for claim C4 at the production timestamp 2016.04.07-12:00:07:
16898 whole days since the epoch plus 43207 seconds of day. -/
theorem claim_C4_time_witness :
    translateTime "2016.04.07-12:00:07" = some ((16898 : ℚ) + 43207 / 86400) := by
  have h := claim_C4_time.1 "2016.04.07-12:00:07" 2016 4 7 12 0 7 (by decide)
  rw [h]
  have hd : daysSinceEpoch 2016 4 7 = 16898 := by decide
  rw [hd]
  norm_num

/-- Python s.strip(chars): remove from both ends every leading and
trailing character that occurs anywhere in chars (a character set, not a
suffix). -/
def pyStripChars (s chars : String) : String :=
  String.mk (((s.data.dropWhile (fun c => chars.data.contains c)).reverse.dropWhile
      (fun c => chars.data.contains c)).reverse)

/-- The output-name derivation of mainProgramTrigger, source lines 405 and
411: "".join((name.strip(".json"), ".nc")). -/
def outputNcName (inputName : String) : String :=
  pyStripChars inputName ".json" ++ ".nc"

/-- Claim C9, evaluated at the failing input session.json: strip with the
character set {., j, s, o, n} removes the leading s and the trailing
on.json run, producing essi.nc rather than the session.nc promised by the
module docstring (Output filenames are replace .json with .nc). -/
theorem claim_C9_strip_filename :
    outputNcName "session.json" = "essi.nc" ∧
    outputNcName "session.json" ≠ "session.nc" := by
  constructor <;> decide

end EnvLog
